import Mathlib

/-!
Verification development for the `heliclockter` library, centred on the
system-timezone resolver `SystemTZ` (`src/heliclockter/systemtz.py`) and the
aware-datetime wrapper `datetime_tz` (`src/heliclockter/__init__.py`).

Embedding conventions:

* An absolute instant is an `Int`, counting seconds since the Unix epoch
  (the value `calendar.timegm` / `time.mktime` work with).  Sub-second parts
  ride along as a separate `micro : Nat` field, exactly as the Python code
  carries `dt.microsecond` through its conversions unchanged.

* A naive wall-clock field tuple `(year, month, day, hour, minute, second)`
  is represented by its `calendar.timegm` image (an `Int` of "local seconds").
  `timegm` is a bijection between field tuples in the supported range and
  seconds, and the source only ever consumes field tuples through
  `timegm`/`mktime`/equality, so this representation is faithful.

* The platform oracle (`time.localtime` / `time.mktime`) is modelled from the
  spec (§2, §4.1, §9: the "Offset Oracle", an injectable interface backed by a
  fixed tzdata snapshot): a timezone is a base segment plus a sorted list of
  transitions, each carrying a UTC offset, a C-style `tm_isdst` value
  (negative = unknown, zero = standard, positive = DST) and an abbreviation.
  `localtime` resolves an instant against the segment list; `mktime` inverts
  it for a given DST hint, preferring an exact candidate whose DST flag
  matches the hint and otherwise re-interpreting the fields with the offset
  of the nearest segment whose DST flag matches (the behaviour of the C
  library's nearby-offset search).

* Python `assert` failures and raised exceptions are modelled with
  `Except String`.
-/

namespace Heliclockter

/-- One constant-offset segment of a timezone: UTC offset in seconds,
C-style `tm_isdst` value (negative unknown, zero standard, positive DST)
and the zone abbreviation. -/
structure TZSeg where
  gmtoff : Int
  isdst : Int
  zone : String
deriving DecidableEq, Repr

/-- A timezone: the segment in force before the first transition, plus a
list of `(transition instant, segment)` pairs sorted by instant.  This is
the "Offset Oracle" data (spec §2, §4.1), modelled from the spec as a fixed
tzdata snapshot. -/
structure TZ where
  base : TZSeg
  trans : List (Int × TZSeg)
deriving DecidableEq, Repr

/-- Every segment of a timezone, in chronological order. -/
def allSegs (tz : TZ) : List TZSeg :=
  tz.base :: tz.trans.map Prod.snd

/-- The segment in force at instant `secs`: the last transition at or before
`secs`, or the base segment. -/
def sampleAt (tz : TZ) (secs : Int) : TZSeg :=
  tz.trans.foldl (fun acc p => if p.1 ≤ secs then p.2 else acc) tz.base

/-- The result of `time.localtime`: the local field tuple `t[:6]` (as its
`timegm` image `lsec`), `tm_gmtoff`, `tm_isdst` and `tm_zone`. -/
structure TMRes where
  lsec : Int
  gmtoff : Int
  isdst : Int
  zone : String
deriving DecidableEq, Repr

/-- Model of `time.localtime`: resolve the instant against the zone's
segments and express it in local wall-clock seconds. -/
def localtime (tz : TZ) (secs : Int) : TMRes :=
  let s := sampleAt tz secs
  ⟨secs + s.gmtoff, s.gmtoff, s.isdst, s.zone⟩

/-- All exact preimages of the local reading `lsec` under
`fun s => s + (sampleAt tz s).gmtoff`: each segment offset yields one trial
instant, kept when resolving that instant really reproduces the reading.
The list may contain duplicates; only its membership and minimum are used. -/
def candidates (tz : TZ) (lsec : Int) : List Int :=
  ((allSegs tz).map (fun s => lsec - s.gmtoff)).filter
    (fun c => c + (sampleAt tz c).gmtoff = lsec)

/-- C `mktime` DST-hint agreement: a sample's `tm_isdst` is compatible with a
requested hint when the hint is negative (don't care), the sample's status is
unknown, or both agree as booleans. -/
def dstMatch (d hint : Int) : Bool :=
  decide (hint < 0) || decide (d < 0) || (decide (0 < d) == decide (0 < hint))

/-- Helper for `boundsList`: walk the transition list producing each
segment's validity interval. -/
def boundsGo (lo : Int) (seg : TZSeg) : List (Int × TZSeg) → List (Option Int × Option Int × TZSeg)
  | [] => [(some lo, none, seg)]
  | (s, seg') :: rest => (some lo, some s, seg) :: boundsGo s seg' rest

/-- Each segment of the zone together with the (half-open) interval of
instants on which it is in force; `none` marks an unbounded end. -/
def boundsList (tz : TZ) : List (Option Int × Option Int × TZSeg) :=
  match tz.trans with
  | [] => [(none, none, tz.base)]
  | (s, seg) :: rest => (none, some s, tz.base) :: boundsGo s seg rest

/-- Distance from an instant to a (half-open) interval of instants. -/
def segDist (x : Int) (lo hi : Option Int) : Int :=
  match lo, hi with
  | none, none => 0
  | some a, none => if x < a then a - x else 0
  | none, some b => if b ≤ x then x - b + 1 else 0
  | some a, some b => if x < a then a - x else if b ≤ x then x - b + 1 else 0

/-- The offset the C library's `mktime` falls back to when the requested DST
hint cannot be satisfied exactly: the offset of the segment nearest to `x`
whose DST flag matches the hint (`none` when no segment ever matches). -/
def chooseAltOff (tz : TZ) (x : Int) (hint : Int) : Option Int :=
  match (boundsList tz).filter (fun p => dstMatch p.2.2.isdst hint) with
  | [] => none
  | p :: ps =>
    some (ps.foldl
      (fun best q => if segDist x q.1 q.2.1 < segDist x best.1 best.2.1 then q else best) p).2.2.gmtoff

/-- Model of `time.mktime` on a local field tuple (as `lsec`) with a DST
hint: return the earliest exact preimage whose DST flag is compatible with
the hint; failing that, take the earliest exact preimage (or, for a reading
in a spring-forward gap, the naive guess `lsec` minus the offset sampled
there) and, if its DST flag conflicts with the hint, re-interpret the fields
with the nearest matching segment's offset. -/
def mktime (tz : TZ) (lsec : Int) (hint : Int) : Int :=
  let cands := candidates tz lsec
  match cands.filter (fun c => dstMatch (sampleAt tz c).isdst hint) with
  | c :: cs => cs.foldl min c
  | [] =>
    let t1 := match cands with
      | c :: cs => cs.foldl min c
      | [] => lsec - (sampleAt tz lsec).gmtoff
    if dstMatch (sampleAt tz t1).isdst hint then t1
    else match chooseAltOff tz t1 hint with
      | some g => lsec - g
      | none => t1

/-- Configuration and identity of one `SystemTZ` resolver instance:
`id` is Python object identity, `cls` the identity of `type(self)`,
`dtCls` the identity of the configured `datetime_like_cls`, `hasFold`
whether that class has a `fold` attribute, and `name` the display-name
override. -/
structure SystemTZ where
  id : Nat
  cls : Nat
  dtCls : Nat
  hasFold : Bool
  name : Option String
deriving DecidableEq, Repr

/-- A `datetime`-like value as consumed by `SystemTZ`: naive fields (as
their `timegm` image), microsecond, fold bit, and the identity of the
attached `tzinfo` object (`none` = naive). -/
structure LocalDT where
  lsec : Int
  micro : Nat
  fold : Bool
  tz : Option Nat
deriving DecidableEq, Repr

/-- Python `not t.tm_isdst` coerced back to an int DST hint (only reached
when `tm_isdst` is non-negative). -/
def flipDst (d : Int) : Int :=
  if d = 0 then 1 else 0

/-- `SystemTZ.fromutc` (systemtz.py lines 100-137): convert a UTC datetime
to local fields, computing the fold bit by re-converting the local fields
with the opposite DST hint and comparing offsets. -/
def fromutc (Z : SystemTZ) (tz : TZ) (dt : LocalDT) : Except String LocalDT :=
  if dt.tz = some Z.id then
    let secs := dt.lsec
    let t := localtime tz secs
    if Z.hasFold = false then
      .ok ⟨t.lsec, dt.micro, false, some Z.id⟩
    else if t.isdst < 0 then
      .ok ⟨t.lsec, dt.micro, false, some Z.id⟩
    else
      let secs0 := mktime tz t.lsec (flipDst t.isdst)
      if secs0 ≥ secs then
        .ok ⟨t.lsec, dt.micro, false, some Z.id⟩
      else
        let t0 := localtime tz secs0
        .ok ⟨t.lsec, dt.micro, decide (t.gmtoff < t0.gmtoff), some Z.id⟩
  else
    .error "AssertionError"

/-- `SystemTZ._mktime` (systemtz.py lines 139-159): resolve a local datetime
tagged with this resolver to a `(struct_time, seconds)` pair, using the fold
bit to pick between the two preimages of an ambiguous reading.  The
microsecond contribution `dt.microsecond / 1_000_000` is carried separately
by the callers' `micro` fields and omitted from the integer instant. -/
def mkt (Z : SystemTZ) (tz : TZ) (dt : LocalDT) : Except String (TMRes × Int) :=
  if dt.tz = some Z.id then
    let secs := mktime tz dt.lsec (-1)
    let t := localtime tz secs
    if Z.hasFold = false then
      .ok (t, secs)
    else if t.isdst < 0 then
      .ok (t, secs)
    else
      let secs0 := mktime tz t.lsec (flipDst t.isdst)
      if secs0 = secs then
        .ok (t, secs)
      else
        let t0 := localtime tz secs0
        if t.gmtoff = t0.gmtoff then
          .ok (t, secs)
        else if (decide (t.gmtoff > t0.gmtoff)).xor dt.fold then
          .ok (t, secs)
        else
          .ok (t0, secs0)
  else
    .error "AssertionError"

/-- `SystemTZ.utcoffset` (systemtz.py lines 161-180); `now` is the live
clock consulted when the argument is `None`. -/
def utcoffset (Z : SystemTZ) (tz : TZ) (now : Int) (dt : Option LocalDT) : Except String Int :=
  match dt with
  | none => .ok (localtime tz now).gmtoff
  | some d =>
    match mkt Z tz d with
    | .ok r => .ok r.1.gmtoff
    | .error e => .error e

/-- `SystemTZ.tzname` (systemtz.py lines 182-199). -/
def tzname (Z : SystemTZ) (tz : TZ) (now : Int) (dt : Option LocalDT) : Except String String :=
  match dt with
  | none => .ok (localtime tz now).zone
  | some d =>
    match mkt Z tz d with
    | .ok r => .ok r.1.zone
    | .error e => .error e

/-- Shared tail of `SystemTZ.dst` (systemtz.py lines 222-230) once the
sample `t` and instant `secs` are resolved: `none` when the platform
reports DST status unknown, a zero duration when DST is not in effect, and
otherwise the difference between the standard-hint re-conversion and the
resolved instant. -/
def dstCore (tz : TZ) (t : TMRes) (secs : Int) : Option Int :=
  if t.isdst < 0 then none
  else if t.isdst = 0 then some 0
  else some (mktime tz t.lsec 0 - secs)

/-- `SystemTZ.dst` (systemtz.py lines 201-230). -/
def dst (Z : SystemTZ) (tz : TZ) (now : Int) (dt : Option LocalDT) :
    Except String (Option Int) :=
  match dt with
  | none => .ok (dstCore tz (localtime tz now) now)
  | some d =>
    match mkt Z tz d with
    | .ok r => .ok (dstCore tz r.1 r.2)
    | .error e => .error e

/-! ### Aware-datetime wrapper (`src/heliclockter/__init__.py`)

The wrapper layer treats `tzinfo` objects abstractly: all it uses of them is
object identity (`tzinfo` equality defaults to identity, and `ZoneInfo`
instances are interned per key), the `utcoffset` method and the `fromutc`
conversion driving `astimezone`. -/

/-- An abstract `tzinfo` object as consumed by the wrapper layer:
`utcoffsetFn` maps a value's naive fields and fold bit to an optional offset
in seconds, `fromutcFn` maps a UTC instant to the local fields and fold bit
this zone assigns to it. -/
structure PyTzinfo where
  id : Nat
  utcoffsetFn : Int → Bool → Option Int
  fromutcFn : Int → Int × Bool

/-- A Python `datetime` value at the wrapper level: naive fields (as their
`timegm` image), microsecond, fold, attached `tzinfo`, and the class
attribute `assumed_timezone_for_timezone_naive_input` visible on the
instance (`none` for plain `datetime.datetime` values). -/
structure PyDatetime where
  lsec : Int
  micro : Nat
  fold : Bool
  tzinfo : Option PyTzinfo
  assumedAttr : Option PyTzinfo

/-- A `datetime_tz` subclass, identified by its configured
`assumed_timezone_for_timezone_naive_input` class attribute. -/
structure DTClass where
  assumedTz : Option PyTzinfo

/-- Model of `datetime.astimezone` for an aware value: subtract the source
zone's offset to reach UTC, then convert with the target zone's `fromutc`.
The result is a plain datetime carrying the target zone.  (CPython's
naive-input fallback interprets the value in the system zone; it is never
reached from `from_datetime`, whose callers assert awareness, and is
modelled as the identity.) -/
def astimezone (dt : PyDatetime) (z : PyTzinfo) : PyDatetime :=
  match dt.tzinfo with
  | some zi =>
    match zi.utcoffsetFn dt.lsec dt.fold with
    | some off =>
      let lf := z.fromutcFn (dt.lsec - off)
      ⟨lf.1, dt.micro, lf.2, some z, none⟩
    | none => dt
  | none => dt

/-- `datetime_tz.__init__` (__init__.py lines 86-105) as a smart
constructor: assert a `tzinfo` is present, that it equals (by identity) the
class's assumed timezone when one is declared, and that
`assert_aware_datetime` holds (the zone's `utcoffset` is non-null for the
value). -/
def mkDatetimeTz (cls : DTClass) (lsec : Int) (micro : Nat) (fold : Bool)
    (tzi : Option PyTzinfo) : Except String PyDatetime :=
  match tzi with
  | none => .error "AssertionError: must have a timezone"
  | some zi =>
    let expected := cls.assumedTz.getD zi
    if zi.id = expected.id then
      match zi.utcoffsetFn lsec fold with
      | some _ => .ok ⟨lsec, micro, fold, some zi, cls.assumedTz⟩
      | none => .error "AssertionError: aware datetime"
    else .error "AssertionError: invalid timezone"

/-- Shared tail of `datetime_tz.from_datetime` (__init__.py lines 178-189):
`cls.assert_aware_datetime(dt)` followed by the `cls(...)` construction. -/
def fromDatetimeFinish (cls : DTClass) (d : PyDatetime) : Except String PyDatetime :=
  match d.tzinfo with
  | none => .error "AssertionError: aware datetime"
  | some zi =>
    match zi.utcoffsetFn d.lsec d.fold with
    | none => .error "AssertionError: aware datetime"
    | some _ => mkDatetimeTz cls d.lsec d.micro d.fold (some zi)

/-- `datetime_tz.from_datetime` (__init__.py lines 148-189).  When the input
is aware and the class assumes a timezone, the input is converted with
`astimezone` (after being rebuilt as a plain `datetime` when the input's own
class declares an assumed timezone). -/
def from_datetime (cls : DTClass) (dt : PyDatetime) : Except String PyDatetime :=
  match dt.tzinfo with
  | none =>
    match cls.assumedTz with
    | none => .error "DatetimeTzError: Cannot create aware datetime from naive if no tz is assumed"
    | some a => fromDatetimeFinish cls ⟨dt.lsec, dt.micro, dt.fold, some a, dt.assumedAttr⟩
  | some _ =>
    match cls.assumedTz with
    | some a =>
      let dt' := if dt.assumedAttr.isSome then
          astimezone ⟨dt.lsec, dt.micro, dt.fold, dt.tzinfo, none⟩ a
        else astimezone dt a
      fromDatetimeFinish cls dt'
    | none => fromDatetimeFinish cls dt

/-- The absolute instant an aware wrapper-level datetime denotes: naive
seconds minus the zone's offset (undefined for naive values or null
offsets). -/
def instantOf (d : PyDatetime) : Option Int :=
  match d.tzinfo with
  | none => none
  | some zi => (zi.utcoffsetFn d.lsec d.fold).map (fun off => d.lsec - off)

/-- `SystemTZ.__eq__` (systemtz.py lines 78-82); `none` models Python's
`NotImplemented`. -/
def sysEq (a b : SystemTZ) : Option Bool :=
  if b.cls = a.cls then some (b.dtCls = a.dtCls) else none

/-- Resolved Python `a == b` for two resolver instances: try `a.__eq__ b`,
then the reflected `b.__eq__ a`, then fall back to object identity. -/
def pyEq (a b : SystemTZ) : Bool :=
  match sysEq a b with
  | some r => r
  | none =>
    match sysEq b a with
    | some r => r
    | none => a.id = b.id

/-! ### A parametric family of realistic zones

`simpleTZ gs gd T1 T2` is a zone with standard offset `gs`, one DST season
of offset `gd` between the forward transition at `T1` and the backward
transition at `T2`.  `Sane` bounds the parameters the way every real zone
is bounded: the DST shift is positive and at most a day, offsets are within
a day of UTC, and the seasons are at least several days long. -/

/-- The standard-time segment of the simple zone family. -/
def stdSeg (gs : Int) : TZSeg := ⟨gs, 0, "STD"⟩

/-- The DST segment of the simple zone family. -/
def dstSeg (gd : Int) : TZSeg := ⟨gd, 1, "DST"⟩

/-- A zone with one DST season: standard offset `gs`, DST offset `gd`,
spring-forward at instant `T1`, fall-back at instant `T2`. -/
def simpleTZ (gs gd T1 T2 : Int) : TZ :=
  ⟨stdSeg gs, [(T1, dstSeg gd), (T2, stdSeg gs)]⟩

/-- Realism bounds on the simple zone family's parameters. -/
def Sane (gs gd T1 T2 : Int) : Prop :=
  gs < gd ∧ gd - gs ≤ 86400 ∧ -86400 < gs ∧ gd < 86400 ∧ T1 + 4 * 86400 < T2

instance (gs gd T1 T2 : Int) : Decidable (Sane gs gd T1 T2) := by
  unfold Sane; infer_instance

theorem sampleAt_simple (gs gd T1 T2 x : Int) :
    sampleAt (simpleTZ gs gd T1 T2) x =
      if T2 ≤ x then stdSeg gs else if T1 ≤ x then dstSeg gd else stdSeg gs := rfl

theorem allSegs_simple (gs gd T1 T2 : Int) :
    allSegs (simpleTZ gs gd T1 T2) = [stdSeg gs, dstSeg gd, stdSeg gs] := rfl

@[simp] theorem stdSeg_gmtoff (gs : Int) : (stdSeg gs).gmtoff = gs := rfl
@[simp] theorem stdSeg_isdst (gs : Int) : (stdSeg gs).isdst = 0 := rfl
@[simp] theorem stdSeg_zone (gs : Int) : (stdSeg gs).zone = "STD" := rfl
@[simp] theorem dstSeg_gmtoff (gd : Int) : (dstSeg gd).gmtoff = gd := rfl
@[simp] theorem dstSeg_isdst (gd : Int) : (dstSeg gd).isdst = 1 := rfl
@[simp] theorem dstSeg_zone (gd : Int) : (dstSeg gd).zone = "DST" := rfl

/-- The per-instant offset of the simple zone, as a plain conditional. -/
theorem gmtoff_simple (gs gd T1 T2 x : Int) :
    (sampleAt (simpleTZ gs gd T1 T2) x).gmtoff =
      if T2 ≤ x then gs else if T1 ≤ x then gd else gs := by
  rw [sampleAt_simple]; split_ifs <;> rfl

/-- The per-instant DST flag of the simple zone, as a plain conditional. -/
theorem isdst_simple (gs gd T1 T2 x : Int) :
    (sampleAt (simpleTZ gs gd T1 T2) x).isdst =
      if T2 ≤ x then 0 else if T1 ≤ x then 1 else 0 := by
  rw [sampleAt_simple]; split_ifs <;> rfl

@[simp] theorem dstMatch_one_negone : dstMatch 1 (-1) = true := rfl
@[simp] theorem dstMatch_zero_negone : dstMatch 0 (-1) = true := rfl
@[simp] theorem dstMatch_one_zero : dstMatch 1 0 = false := rfl
@[simp] theorem dstMatch_zero_zero : dstMatch 0 0 = true := rfl
@[simp] theorem dstMatch_one_one : dstMatch 1 1 = true := rfl
@[simp] theorem dstMatch_zero_one : dstMatch 0 1 = false := rfl

/-- Candidate instants for a standard-time reading before the DST season. -/
theorem cand_stdearly (gs gd T1 T2 l : Int) (h : Sane gs gd T1 T2) (hl : l < T1 + gs) :
    candidates (simpleTZ gs gd T1 T2) l = [l - gs, l - gs] := by
  obtain ⟨h1, h2, h3, h4, h5⟩ := h
  simp only [candidates, allSegs_simple, List.map_cons, List.map_nil, List.filter_cons,
    List.filter_nil, stdSeg_gmtoff, dstSeg_gmtoff, gmtoff_simple, decide_eq_true_eq]
  split_ifs <;> first | rfl | (exfalso; omega)

/-- Candidate instants for a reading inside the spring-forward gap: none. -/
theorem cand_gap (gs gd T1 T2 l : Int) (h : Sane gs gd T1 T2)
    (hl1 : T1 + gs ≤ l) (hl2 : l < T1 + gd) :
    candidates (simpleTZ gs gd T1 T2) l = [] := by
  obtain ⟨h1, h2, h3, h4, h5⟩ := h
  simp only [candidates, allSegs_simple, List.map_cons, List.map_nil, List.filter_cons,
    List.filter_nil, stdSeg_gmtoff, dstSeg_gmtoff, gmtoff_simple, decide_eq_true_eq]
  split_ifs <;> first | rfl | (exfalso; omega)

/-- Candidate instants for an unambiguous DST-season reading. -/
theorem cand_dstread (gs gd T1 T2 l : Int) (h : Sane gs gd T1 T2)
    (hl1 : T1 + gd ≤ l) (hl2 : l < T2 + gs) :
    candidates (simpleTZ gs gd T1 T2) l = [l - gd] := by
  obtain ⟨h1, h2, h3, h4, h5⟩ := h
  simp only [candidates, allSegs_simple, List.map_cons, List.map_nil, List.filter_cons,
    List.filter_nil, stdSeg_gmtoff, dstSeg_gmtoff, gmtoff_simple, decide_eq_true_eq]
  split_ifs <;> first | rfl | (exfalso; omega)

/-- Candidate instants for a reading inside the fall-back overlap: both the
DST-side and the standard-side preimage. -/
theorem cand_overlap (gs gd T1 T2 l : Int) (h : Sane gs gd T1 T2)
    (hl1 : T2 + gs ≤ l) (hl2 : l < T2 + gd) :
    candidates (simpleTZ gs gd T1 T2) l = [l - gs, l - gd, l - gs] := by
  obtain ⟨h1, h2, h3, h4, h5⟩ := h
  simp only [candidates, allSegs_simple, List.map_cons, List.map_nil, List.filter_cons,
    List.filter_nil, stdSeg_gmtoff, dstSeg_gmtoff, gmtoff_simple, decide_eq_true_eq]
  split_ifs <;> first | rfl | (exfalso; omega)

/-- Candidate instants for a standard-time reading after the DST season. -/
theorem cand_stdlate (gs gd T1 T2 l : Int) (h : Sane gs gd T1 T2) (hl : T2 + gd ≤ l) :
    candidates (simpleTZ gs gd T1 T2) l = [l - gs, l - gs] := by
  obtain ⟨h1, h2, h3, h4, h5⟩ := h
  simp only [candidates, allSegs_simple, List.map_cons, List.map_nil, List.filter_cons,
    List.filter_nil, stdSeg_gmtoff, dstSeg_gmtoff, gmtoff_simple, decide_eq_true_eq]
  split_ifs <;> first | rfl | (exfalso; omega)

/-- When the requested hint is "DST", the nearest-matching-segment search of
the simple zone always lands on the DST segment. -/
theorem chooseAlt_simple_dst (gs gd T1 T2 x : Int) :
    chooseAltOff (simpleTZ gs gd T1 T2) x 1 = some gd := rfl

/-- When the requested hint is "standard", both matching segments of the
simple zone carry the standard offset, so the search returns it whichever
segment is nearer. -/
theorem chooseAlt_simple_std (gs gd T1 T2 x : Int) :
    chooseAltOff (simpleTZ gs gd T1 T2) x 0 = some gs := by
  simp [chooseAltOff, boundsList, simpleTZ, boundsGo]
  split <;> rfl

/-! ### `mktime` on the simple zone, region by region -/

theorem mktime_stdearly_m1 (gs gd T1 T2 l : Int) (h : Sane gs gd T1 T2) (hl : l < T1 + gs) :
    mktime (simpleTZ gs gd T1 T2) l (-1) = l - gs := by
  obtain ⟨h1, h2, h3, h4, h5⟩ := h
  have hc := cand_stdearly gs gd T1 T2 l ⟨h1, h2, h3, h4, h5⟩ hl
  have hs1 : (sampleAt (simpleTZ gs gd T1 T2) (l - gs)).isdst = 0 := by
    rw [isdst_simple, if_neg (by omega), if_neg (by omega)]
  simp [mktime, hc, hs1]

theorem mktime_stdearly_h1 (gs gd T1 T2 l : Int) (h : Sane gs gd T1 T2) (hl : l < T1 + gs) :
    mktime (simpleTZ gs gd T1 T2) l 1 = l - gd := by
  obtain ⟨h1, h2, h3, h4, h5⟩ := h
  have hc := cand_stdearly gs gd T1 T2 l ⟨h1, h2, h3, h4, h5⟩ hl
  have hs1 : (sampleAt (simpleTZ gs gd T1 T2) (l - gs)).isdst = 0 := by
    rw [isdst_simple, if_neg (by omega), if_neg (by omega)]
  simp [mktime, hc, hs1, chooseAlt_simple_dst]

theorem mktime_gap_before (gs gd T1 T2 l : Int) (h : Sane gs gd T1 T2)
    (hl1 : T1 + gs ≤ l) (hl2 : l < T1 + gd) (hb : l < T1) :
    mktime (simpleTZ gs gd T1 T2) l (-1) = l - gs := by
  obtain ⟨h1, h2, h3, h4, h5⟩ := h
  have hc := cand_gap gs gd T1 T2 l ⟨h1, h2, h3, h4, h5⟩ hl1 hl2
  have hgl : (sampleAt (simpleTZ gs gd T1 T2) l).gmtoff = gs := by
    rw [gmtoff_simple, if_neg (by omega), if_neg (by omega)]
  have hs1 : (sampleAt (simpleTZ gs gd T1 T2) (l - gs)).isdst = 1 := by
    rw [isdst_simple, if_neg (by omega), if_pos (by omega)]
  simp [mktime, hc, hgl, hs1]

theorem mktime_gap_after (gs gd T1 T2 l : Int) (h : Sane gs gd T1 T2)
    (hl1 : T1 + gs ≤ l) (hl2 : l < T1 + gd) (hb : T1 ≤ l) :
    mktime (simpleTZ gs gd T1 T2) l (-1) = l - gd := by
  obtain ⟨h1, h2, h3, h4, h5⟩ := h
  have hc := cand_gap gs gd T1 T2 l ⟨h1, h2, h3, h4, h5⟩ hl1 hl2
  have hgl : (sampleAt (simpleTZ gs gd T1 T2) l).gmtoff = gd := by
    rw [gmtoff_simple, if_neg (by omega), if_pos (by omega)]
  have hs1 : (sampleAt (simpleTZ gs gd T1 T2) (l - gd)).isdst = 0 := by
    rw [isdst_simple, if_neg (by omega), if_neg (by omega)]
  simp [mktime, hc, hgl, hs1]

theorem mktime_dstread_m1 (gs gd T1 T2 l : Int) (h : Sane gs gd T1 T2)
    (hl1 : T1 + gd ≤ l) (hl2 : l < T2 + gs) :
    mktime (simpleTZ gs gd T1 T2) l (-1) = l - gd := by
  obtain ⟨h1, h2, h3, h4, h5⟩ := h
  have hc := cand_dstread gs gd T1 T2 l ⟨h1, h2, h3, h4, h5⟩ hl1 hl2
  have hs1 : (sampleAt (simpleTZ gs gd T1 T2) (l - gd)).isdst = 1 := by
    rw [isdst_simple, if_neg (by omega), if_pos (by omega)]
  simp [mktime, hc, hs1]

theorem mktime_dstread_h0 (gs gd T1 T2 l : Int) (h : Sane gs gd T1 T2)
    (hl1 : T1 + gd ≤ l) (hl2 : l < T2 + gs) :
    mktime (simpleTZ gs gd T1 T2) l 0 = l - gs := by
  obtain ⟨h1, h2, h3, h4, h5⟩ := h
  have hc := cand_dstread gs gd T1 T2 l ⟨h1, h2, h3, h4, h5⟩ hl1 hl2
  have hs1 : (sampleAt (simpleTZ gs gd T1 T2) (l - gd)).isdst = 1 := by
    rw [isdst_simple, if_neg (by omega), if_pos (by omega)]
  simp [mktime, hc, hs1, chooseAlt_simple_std]

theorem mktime_overlap_m1 (gs gd T1 T2 l : Int) (h : Sane gs gd T1 T2)
    (hl1 : T2 + gs ≤ l) (hl2 : l < T2 + gd) :
    mktime (simpleTZ gs gd T1 T2) l (-1) = l - gd := by
  obtain ⟨h1, h2, h3, h4, h5⟩ := h
  have hc := cand_overlap gs gd T1 T2 l ⟨h1, h2, h3, h4, h5⟩ hl1 hl2
  have hs1 : (sampleAt (simpleTZ gs gd T1 T2) (l - gs)).isdst = 0 := by
    rw [isdst_simple, if_pos (by omega)]
  have hs2 : (sampleAt (simpleTZ gs gd T1 T2) (l - gd)).isdst = 1 := by
    rw [isdst_simple, if_neg (by omega), if_pos (by omega)]
  simp [mktime, hc, hs1, hs2]
  omega

theorem mktime_overlap_h0 (gs gd T1 T2 l : Int) (h : Sane gs gd T1 T2)
    (hl1 : T2 + gs ≤ l) (hl2 : l < T2 + gd) :
    mktime (simpleTZ gs gd T1 T2) l 0 = l - gs := by
  obtain ⟨h1, h2, h3, h4, h5⟩ := h
  have hc := cand_overlap gs gd T1 T2 l ⟨h1, h2, h3, h4, h5⟩ hl1 hl2
  have hs1 : (sampleAt (simpleTZ gs gd T1 T2) (l - gs)).isdst = 0 := by
    rw [isdst_simple, if_pos (by omega)]
  have hs2 : (sampleAt (simpleTZ gs gd T1 T2) (l - gd)).isdst = 1 := by
    rw [isdst_simple, if_neg (by omega), if_pos (by omega)]
  simp [mktime, hc, hs1, hs2]

theorem mktime_overlap_h1 (gs gd T1 T2 l : Int) (h : Sane gs gd T1 T2)
    (hl1 : T2 + gs ≤ l) (hl2 : l < T2 + gd) :
    mktime (simpleTZ gs gd T1 T2) l 1 = l - gd := by
  obtain ⟨h1, h2, h3, h4, h5⟩ := h
  have hc := cand_overlap gs gd T1 T2 l ⟨h1, h2, h3, h4, h5⟩ hl1 hl2
  have hs1 : (sampleAt (simpleTZ gs gd T1 T2) (l - gs)).isdst = 0 := by
    rw [isdst_simple, if_pos (by omega)]
  have hs2 : (sampleAt (simpleTZ gs gd T1 T2) (l - gd)).isdst = 1 := by
    rw [isdst_simple, if_neg (by omega), if_pos (by omega)]
  simp [mktime, hc, hs1, hs2]

theorem mktime_stdlate_m1 (gs gd T1 T2 l : Int) (h : Sane gs gd T1 T2) (hl : T2 + gd ≤ l) :
    mktime (simpleTZ gs gd T1 T2) l (-1) = l - gs := by
  obtain ⟨h1, h2, h3, h4, h5⟩ := h
  have hc := cand_stdlate gs gd T1 T2 l ⟨h1, h2, h3, h4, h5⟩ hl
  have hs1 : (sampleAt (simpleTZ gs gd T1 T2) (l - gs)).isdst = 0 := by
    rw [isdst_simple, if_pos (by omega)]
  simp [mktime, hc, hs1]

theorem mktime_stdlate_h1 (gs gd T1 T2 l : Int) (h : Sane gs gd T1 T2) (hl : T2 + gd ≤ l) :
    mktime (simpleTZ gs gd T1 T2) l 1 = l - gd := by
  obtain ⟨h1, h2, h3, h4, h5⟩ := h
  have hc := cand_stdlate gs gd T1 T2 l ⟨h1, h2, h3, h4, h5⟩ hl
  have hs1 : (sampleAt (simpleTZ gs gd T1 T2) (l - gs)).isdst = 0 := by
    rw [isdst_simple, if_pos (by omega)]
  simp [mktime, hc, hs1, chooseAlt_simple_dst]

/-! ### `fromutc` on the simple zone, instant region by instant region -/

theorem fromutc_stdearly (gs gd T1 T2 secs : Int) (mi : Nat) (f0 : Bool) (Z : SystemTZ)
    (hZ : Z.hasFold = true) (h : Sane gs gd T1 T2) (hr : secs < T1) :
    fromutc Z (simpleTZ gs gd T1 T2) ⟨secs, mi, f0, some Z.id⟩ =
      .ok ⟨secs + gs, mi, false, some Z.id⟩ := by
  obtain ⟨h1, h2, h3, h4, h5⟩ := h
  have hsm : sampleAt (simpleTZ gs gd T1 T2) secs = stdSeg gs := by
    rw [sampleAt_simple, if_neg (by omega), if_neg (by omega)]
  have hmk := mktime_stdearly_h1 gs gd T1 T2 (secs + gs) ⟨h1, h2, h3, h4, h5⟩ (by omega)
  have hsm0 : sampleAt (simpleTZ gs gd T1 T2) (secs + gs - gd) = stdSeg gs := by
    rw [sampleAt_simple, if_neg (by omega), if_neg (by omega)]
  have hge : ¬ (secs + gs - gd ≥ secs) := by omega
  simp [fromutc, hZ, localtime, hsm, flipDst, hmk, hsm0, hge]

theorem fromutc_dstmid (gs gd T1 T2 secs : Int) (mi : Nat) (f0 : Bool) (Z : SystemTZ)
    (hZ : Z.hasFold = true) (h : Sane gs gd T1 T2) (hr1 : T1 ≤ secs)
    (hr2 : secs < T2 - (gd - gs)) :
    fromutc Z (simpleTZ gs gd T1 T2) ⟨secs, mi, f0, some Z.id⟩ =
      .ok ⟨secs + gd, mi, false, some Z.id⟩ := by
  obtain ⟨h1, h2, h3, h4, h5⟩ := h
  have hsm : sampleAt (simpleTZ gs gd T1 T2) secs = dstSeg gd := by
    rw [sampleAt_simple, if_neg (by omega), if_pos (by omega)]
  have hmk := mktime_dstread_h0 gs gd T1 T2 (secs + gd) ⟨h1, h2, h3, h4, h5⟩
    (by omega) (by omega)
  have hge : secs + gd - gs ≥ secs := by omega
  simp [fromutc, hZ, localtime, hsm, flipDst, hmk, hge]

theorem fromutc_firstleg (gs gd T1 T2 secs : Int) (mi : Nat) (f0 : Bool) (Z : SystemTZ)
    (hZ : Z.hasFold = true) (h : Sane gs gd T1 T2) (hr1 : T2 - (gd - gs) ≤ secs)
    (hr2 : secs < T2) :
    fromutc Z (simpleTZ gs gd T1 T2) ⟨secs, mi, f0, some Z.id⟩ =
      .ok ⟨secs + gd, mi, false, some Z.id⟩ := by
  obtain ⟨h1, h2, h3, h4, h5⟩ := h
  have hsm : sampleAt (simpleTZ gs gd T1 T2) secs = dstSeg gd := by
    rw [sampleAt_simple, if_neg (by omega), if_pos (by omega)]
  have hmk := mktime_overlap_h0 gs gd T1 T2 (secs + gd) ⟨h1, h2, h3, h4, h5⟩
    (by omega) (by omega)
  have hge : secs + gd - gs ≥ secs := by omega
  simp [fromutc, hZ, localtime, hsm, flipDst, hmk, hge]

theorem fromutc_secondleg (gs gd T1 T2 secs : Int) (mi : Nat) (f0 : Bool) (Z : SystemTZ)
    (hZ : Z.hasFold = true) (h : Sane gs gd T1 T2) (hr1 : T2 ≤ secs)
    (hr2 : secs < T2 + (gd - gs)) :
    fromutc Z (simpleTZ gs gd T1 T2) ⟨secs, mi, f0, some Z.id⟩ =
      .ok ⟨secs + gs, mi, true, some Z.id⟩ := by
  obtain ⟨h1, h2, h3, h4, h5⟩ := h
  have hsm : sampleAt (simpleTZ gs gd T1 T2) secs = stdSeg gs := by
    rw [sampleAt_simple, if_pos (by omega)]
  have hmk := mktime_overlap_h1 gs gd T1 T2 (secs + gs) ⟨h1, h2, h3, h4, h5⟩
    (by omega) (by omega)
  have hsm0 : sampleAt (simpleTZ gs gd T1 T2) (secs + gs - gd) = dstSeg gd := by
    rw [sampleAt_simple, if_neg (by omega), if_pos (by omega)]
  have hge : ¬ (secs + gs - gd ≥ secs) := by omega
  simp [fromutc, hZ, localtime, hsm, flipDst, hmk, hsm0, hge, h1]

theorem fromutc_stdlate (gs gd T1 T2 secs : Int) (mi : Nat) (f0 : Bool) (Z : SystemTZ)
    (hZ : Z.hasFold = true) (h : Sane gs gd T1 T2) (hr : T2 + (gd - gs) ≤ secs) :
    fromutc Z (simpleTZ gs gd T1 T2) ⟨secs, mi, f0, some Z.id⟩ =
      .ok ⟨secs + gs, mi, false, some Z.id⟩ := by
  obtain ⟨h1, h2, h3, h4, h5⟩ := h
  have hsm : sampleAt (simpleTZ gs gd T1 T2) secs = stdSeg gs := by
    rw [sampleAt_simple, if_pos (by omega)]
  have hmk := mktime_stdlate_h1 gs gd T1 T2 (secs + gs) ⟨h1, h2, h3, h4, h5⟩ (by omega)
  have hsm0 : sampleAt (simpleTZ gs gd T1 T2) (secs + gs - gd) = stdSeg gs := by
    rw [sampleAt_simple, if_pos (by omega)]
  have hge : ¬ (secs + gs - gd ≥ secs) := by omega
  simp [fromutc, hZ, localtime, hsm, flipDst, hmk, hsm0, hge]

/-! ### `_mktime` on the simple zone, reading region by reading region -/

theorem mkt_stdearly (gs gd T1 T2 l : Int) (mi : Nat) (f : Bool) (Z : SystemTZ)
    (hZ : Z.hasFold = true) (h : Sane gs gd T1 T2) (hl : l < T1 + gs) :
    mkt Z (simpleTZ gs gd T1 T2) ⟨l, mi, f, some Z.id⟩ =
      .ok (⟨l, gs, 0, "STD"⟩, l - gs) := by
  obtain ⟨h1, h2, h3, h4, h5⟩ := h
  have hm1 := mktime_stdearly_m1 gs gd T1 T2 l ⟨h1, h2, h3, h4, h5⟩ hl
  have hsm : sampleAt (simpleTZ gs gd T1 T2) (l - gs) = stdSeg gs := by
    rw [sampleAt_simple, if_neg (by omega), if_neg (by omega)]
  have hm2 := mktime_stdearly_h1 gs gd T1 T2 l ⟨h1, h2, h3, h4, h5⟩ hl
  have hsm0 : sampleAt (simpleTZ gs gd T1 T2) (l - gd) = stdSeg gs := by
    rw [sampleAt_simple, if_neg (by omega), if_neg (by omega)]
  have hne : ¬ (l - gd = l - gs) := by omega
  simp [mkt, hZ, localtime, hm1, hsm, flipDst, hm2, hsm0, hne]

theorem mkt_gap_before (gs gd T1 T2 l : Int) (mi : Nat) (f : Bool) (Z : SystemTZ)
    (hZ : Z.hasFold = true) (h : Sane gs gd T1 T2)
    (hl1 : T1 + gs ≤ l) (hl2 : l < T1 + gd) (hb : l < T1) :
    mkt Z (simpleTZ gs gd T1 T2) ⟨l, mi, f, some Z.id⟩ =
      .ok (⟨l + (gd - gs), gd, 1, "DST"⟩, l - gs) := by
  obtain ⟨h1, h2, h3, h4, h5⟩ := h
  have hm1 := mktime_gap_before gs gd T1 T2 l ⟨h1, h2, h3, h4, h5⟩ hl1 hl2 hb
  have hsm : sampleAt (simpleTZ gs gd T1 T2) (l - gs) = dstSeg gd := by
    rw [sampleAt_simple, if_neg (by omega), if_pos (by omega)]
  have hm2 := mktime_dstread_h0 gs gd T1 T2 (l + (gd - gs)) ⟨h1, h2, h3, h4, h5⟩
    (by omega) (by omega)
  have hsm0 : sampleAt (simpleTZ gs gd T1 T2) (l + (gd - gs) - gs) = dstSeg gd := by
    rw [sampleAt_simple, if_neg (by omega), if_pos (by omega)]
  have hne : ¬ (l + (gd - gs) - gs = l - gs) := by omega
  have harith : l - gs + gd = l + (gd - gs) := by omega
  simp [mkt, hZ, localtime, hm1, hsm, flipDst, hm2, hsm0, hne, harith]

theorem mkt_gap_after (gs gd T1 T2 l : Int) (mi : Nat) (f : Bool) (Z : SystemTZ)
    (hZ : Z.hasFold = true) (h : Sane gs gd T1 T2)
    (hl1 : T1 + gs ≤ l) (hl2 : l < T1 + gd) (hb : T1 ≤ l) :
    mkt Z (simpleTZ gs gd T1 T2) ⟨l, mi, f, some Z.id⟩ =
      .ok (⟨l - (gd - gs), gs, 0, "STD"⟩, l - gd) := by
  obtain ⟨h1, h2, h3, h4, h5⟩ := h
  have hm1 := mktime_gap_after gs gd T1 T2 l ⟨h1, h2, h3, h4, h5⟩ hl1 hl2 hb
  have hsm : sampleAt (simpleTZ gs gd T1 T2) (l - gd) = stdSeg gs := by
    rw [sampleAt_simple, if_neg (by omega), if_neg (by omega)]
  have hm2 := mktime_stdearly_h1 gs gd T1 T2 (l - (gd - gs)) ⟨h1, h2, h3, h4, h5⟩ (by omega)
  have hsm0 : sampleAt (simpleTZ gs gd T1 T2) (l - (gd - gs) - gd) = stdSeg gs := by
    rw [sampleAt_simple, if_neg (by omega), if_neg (by omega)]
  have hne : ¬ (l - (gd - gs) - gd = l - gd) := by omega
  have harith : l - gd + gs = l - (gd - gs) := by omega
  simp [mkt, hZ, localtime, hm1, hsm, flipDst, hm2, hsm0, hne, harith]

theorem mkt_dstread (gs gd T1 T2 l : Int) (mi : Nat) (f : Bool) (Z : SystemTZ)
    (hZ : Z.hasFold = true) (h : Sane gs gd T1 T2)
    (hl1 : T1 + gd ≤ l) (hl2 : l < T2 + gs) :
    mkt Z (simpleTZ gs gd T1 T2) ⟨l, mi, f, some Z.id⟩ =
      .ok (⟨l, gd, 1, "DST"⟩, l - gd) := by
  obtain ⟨h1, h2, h3, h4, h5⟩ := h
  have hm1 := mktime_dstread_m1 gs gd T1 T2 l ⟨h1, h2, h3, h4, h5⟩ hl1 hl2
  have hsm : sampleAt (simpleTZ gs gd T1 T2) (l - gd) = dstSeg gd := by
    rw [sampleAt_simple, if_neg (by omega), if_pos (by omega)]
  have hm2 := mktime_dstread_h0 gs gd T1 T2 l ⟨h1, h2, h3, h4, h5⟩ hl1 hl2
  have hsm0 : sampleAt (simpleTZ gs gd T1 T2) (l - gs) = dstSeg gd := by
    rw [sampleAt_simple, if_neg (by omega), if_pos (by omega)]
  have hne : ¬ (l - gs = l - gd) := by omega
  simp [mkt, hZ, localtime, hm1, hsm, flipDst, hm2, hsm0, hne]

theorem mkt_overlap (gs gd T1 T2 l : Int) (mi : Nat) (f : Bool) (Z : SystemTZ)
    (hZ : Z.hasFold = true) (h : Sane gs gd T1 T2)
    (hl1 : T2 + gs ≤ l) (hl2 : l < T2 + gd) :
    mkt Z (simpleTZ gs gd T1 T2) ⟨l, mi, f, some Z.id⟩ =
      .ok (if f then (⟨l, gs, 0, "STD"⟩, l - gs) else (⟨l, gd, 1, "DST"⟩, l - gd)) := by
  obtain ⟨h1, h2, h3, h4, h5⟩ := h
  have hm1 := mktime_overlap_m1 gs gd T1 T2 l ⟨h1, h2, h3, h4, h5⟩ hl1 hl2
  have hsm : sampleAt (simpleTZ gs gd T1 T2) (l - gd) = dstSeg gd := by
    rw [sampleAt_simple, if_neg (by omega), if_pos (by omega)]
  have hm2 := mktime_overlap_h0 gs gd T1 T2 l ⟨h1, h2, h3, h4, h5⟩ hl1 hl2
  have hsm0 : sampleAt (simpleTZ gs gd T1 T2) (l - gs) = stdSeg gs := by
    rw [sampleAt_simple, if_pos (by omega)]
  have hne : ¬ (l - gs = l - gd) := by omega
  have hgg : ¬ (gd = gs) := by omega
  have hdec : decide (gd > gs) = true := decide_eq_true h1
  cases f with
  | false => simp [mkt, hZ, localtime, hm1, hsm, flipDst, hm2, hsm0, hne, hgg, hdec]
  | true => simp [mkt, hZ, localtime, hm1, hsm, flipDst, hm2, hsm0, hne, hgg, hdec]

theorem mkt_stdlate (gs gd T1 T2 l : Int) (mi : Nat) (f : Bool) (Z : SystemTZ)
    (hZ : Z.hasFold = true) (h : Sane gs gd T1 T2) (hl : T2 + gd ≤ l) :
    mkt Z (simpleTZ gs gd T1 T2) ⟨l, mi, f, some Z.id⟩ =
      .ok (⟨l, gs, 0, "STD"⟩, l - gs) := by
  obtain ⟨h1, h2, h3, h4, h5⟩ := h
  have hm1 := mktime_stdlate_m1 gs gd T1 T2 l ⟨h1, h2, h3, h4, h5⟩ hl
  have hsm : sampleAt (simpleTZ gs gd T1 T2) (l - gs) = stdSeg gs := by
    rw [sampleAt_simple, if_pos (by omega)]
  have hm2 := mktime_stdlate_h1 gs gd T1 T2 l ⟨h1, h2, h3, h4, h5⟩ hl
  have hsm0 : sampleAt (simpleTZ gs gd T1 T2) (l - gd) = stdSeg gs := by
    rw [sampleAt_simple, if_pos (by omega)]
  have hne : ¬ (l - gd = l - gs) := by omega
  simp [mkt, hZ, localtime, hm1, hsm, flipDst, hm2, hsm0, hne]

/-! ### Claims C1-C4 -/

/-- C1: Round-trip — for every UTC instant `secs` of a zone of the simple
family, converting it to local wall-clock fields with `fromutc` and feeding
the produced fields and fold bit back through `_mktime` recovers exactly the
original instant. -/
theorem C1_roundtrip (gs gd T1 T2 secs : Int) (mi : Nat) (f0 : Bool) (Z : SystemTZ)
    (hZ : Z.hasFold = true) (h : Sane gs gd T1 T2) :
    ∃ r tm, fromutc Z (simpleTZ gs gd T1 T2) ⟨secs, mi, f0, some Z.id⟩ = .ok r ∧
      mkt Z (simpleTZ gs gd T1 T2) r = .ok (tm, secs) := by
  obtain ⟨h1, h2, h3, h4, h5⟩ := h
  rcases lt_or_le secs T1 with c1 | c1
  · refine ⟨⟨secs + gs, mi, false, some Z.id⟩, ⟨secs + gs, gs, 0, "STD"⟩,
      fromutc_stdearly gs gd T1 T2 secs mi f0 Z hZ ⟨h1, h2, h3, h4, h5⟩ c1, ?_⟩
    rw [mkt_stdearly gs gd T1 T2 (secs + gs) mi false Z hZ ⟨h1, h2, h3, h4, h5⟩ (by omega)]
    simp
  rcases lt_or_le secs (T2 - (gd - gs)) with c2 | c2
  · refine ⟨⟨secs + gd, mi, false, some Z.id⟩, ⟨secs + gd, gd, 1, "DST"⟩,
      fromutc_dstmid gs gd T1 T2 secs mi f0 Z hZ ⟨h1, h2, h3, h4, h5⟩ c1 c2, ?_⟩
    rw [mkt_dstread gs gd T1 T2 (secs + gd) mi false Z hZ ⟨h1, h2, h3, h4, h5⟩
      (by omega) (by omega)]
    simp
  rcases lt_or_le secs T2 with c3 | c3
  · refine ⟨⟨secs + gd, mi, false, some Z.id⟩, ⟨secs + gd, gd, 1, "DST"⟩,
      fromutc_firstleg gs gd T1 T2 secs mi f0 Z hZ ⟨h1, h2, h3, h4, h5⟩ c2 c3, ?_⟩
    rw [mkt_overlap gs gd T1 T2 (secs + gd) mi false Z hZ ⟨h1, h2, h3, h4, h5⟩
      (by omega) (by omega)]
    simp
  rcases lt_or_le secs (T2 + (gd - gs)) with c4 | c4
  · refine ⟨⟨secs + gs, mi, true, some Z.id⟩, ⟨secs + gs, gs, 0, "STD"⟩,
      fromutc_secondleg gs gd T1 T2 secs mi f0 Z hZ ⟨h1, h2, h3, h4, h5⟩ c3 c4, ?_⟩
    rw [mkt_overlap gs gd T1 T2 (secs + gs) mi true Z hZ ⟨h1, h2, h3, h4, h5⟩
      (by omega) (by omega)]
    simp
  · refine ⟨⟨secs + gs, mi, false, some Z.id⟩, ⟨secs + gs, gs, 0, "STD"⟩,
      fromutc_stdlate gs gd T1 T2 secs mi f0 Z hZ ⟨h1, h2, h3, h4, h5⟩ c4, ?_⟩
    rw [mkt_stdlate gs gd T1 T2 (secs + gs) mi false Z hZ ⟨h1, h2, h3, h4, h5⟩ (by omega)]
    simp

theorem C1_roundtrip_witness :
    (⟨0, 0, 0, true, none⟩ : SystemTZ).hasFold = true ∧
    Sane (-18000) (-14400) 1000000 2000000 ∧
    (∃ r tm, fromutc ⟨0, 0, 0, true, none⟩ (simpleTZ (-18000) (-14400) 1000000 2000000)
        ⟨2000500, 3, false, some (⟨0, 0, 0, true, none⟩ : SystemTZ).id⟩ = .ok r ∧
      mkt ⟨0, 0, 0, true, none⟩ (simpleTZ (-18000) (-14400) 1000000 2000000) r =
        .ok (tm, 2000500)) :=
  ⟨rfl, by decide,
    C1_roundtrip (-18000) (-14400) 1000000 2000000 2000500 3 false
      ⟨0, 0, 0, true, none⟩ rfl (by decide)⟩

/-- C2: Fold disambiguation — at the backward transition `T2` of a zone of
the simple family whose clocks move back one hour, converting the UTC
instant at the start of the repeated hour (`T2 - 3600`) and the UTC instant
one hour later (`T2`) yields the same local wall-clock fields, with fold 0
for the earlier instant and fold 1 for the later one, and `utcoffset`
reports different offsets for the two results. -/
theorem C2_fold_disambiguation (gs T1 T2 : Int) (mi1 mi2 : Nat) (f1 f2 : Bool)
    (Z : SystemTZ) (now : Int) (hZ : Z.hasFold = true) (h : Sane gs (gs + 3600) T1 T2) :
    ∃ r1 r2,
      fromutc Z (simpleTZ gs (gs + 3600) T1 T2) ⟨T2 - 3600, mi1, f1, some Z.id⟩ = .ok r1 ∧
      fromutc Z (simpleTZ gs (gs + 3600) T1 T2) ⟨T2, mi2, f2, some Z.id⟩ = .ok r2 ∧
      r1.lsec = r2.lsec ∧ r1.fold = false ∧ r2.fold = true ∧
      utcoffset Z (simpleTZ gs (gs + 3600) T1 T2) now (some r1) = .ok (gs + 3600) ∧
      utcoffset Z (simpleTZ gs (gs + 3600) T1 T2) now (some r2) = .ok gs ∧
      gs + 3600 ≠ gs := by
  obtain ⟨h1, h2, h3, h4, h5⟩ := h
  have hr1 := fromutc_firstleg gs (gs + 3600) T1 T2 (T2 - 3600) mi1 f1 Z hZ
    ⟨h1, h2, h3, h4, h5⟩ (by omega) (by omega)
  have hr2 := fromutc_secondleg gs (gs + 3600) T1 T2 T2 mi2 f2 Z hZ
    ⟨h1, h2, h3, h4, h5⟩ (by omega) (by omega)
  rw [show T2 - 3600 + (gs + 3600) = T2 + gs by omega] at hr1
  have hk1 := mkt_overlap gs (gs + 3600) T1 T2 (T2 + gs) mi1 false Z hZ
    ⟨h1, h2, h3, h4, h5⟩ (by omega) (by omega)
  have hk2 := mkt_overlap gs (gs + 3600) T1 T2 (T2 + gs) mi2 true Z hZ
    ⟨h1, h2, h3, h4, h5⟩ (by omega) (by omega)
  refine ⟨⟨T2 + gs, mi1, false, some Z.id⟩,
    ⟨T2 + gs, mi2, true, some Z.id⟩, hr1, hr2, rfl, rfl, rfl, ?_, ?_, by omega⟩
  · rw [utcoffset, hk1]
    norm_num
  · rw [utcoffset, hk2]
    norm_num

theorem C2_fold_disambiguation_witness :
    (⟨0, 0, 0, true, none⟩ : SystemTZ).hasFold = true ∧
    Sane (-18000) (-18000 + 3600) 1000000 2000000 ∧
    (∃ r1 r2,
      fromutc ⟨0, 0, 0, true, none⟩ (simpleTZ (-18000) (-18000 + 3600) 1000000 2000000)
        ⟨2000000 - 3600, 0, false, some (⟨0, 0, 0, true, none⟩ : SystemTZ).id⟩ = .ok r1 ∧
      fromutc ⟨0, 0, 0, true, none⟩ (simpleTZ (-18000) (-18000 + 3600) 1000000 2000000)
        ⟨2000000, 0, false, some (⟨0, 0, 0, true, none⟩ : SystemTZ).id⟩ = .ok r2 ∧
      r1.lsec = r2.lsec ∧ r1.fold = false ∧ r2.fold = true ∧
      utcoffset ⟨0, 0, 0, true, none⟩ (simpleTZ (-18000) (-18000 + 3600) 1000000 2000000)
        7 (some r1) = .ok (-18000 + 3600) ∧
      utcoffset ⟨0, 0, 0, true, none⟩ (simpleTZ (-18000) (-18000 + 3600) 1000000 2000000)
        7 (some r2) = .ok (-18000) ∧
      (-18000 : Int) + 3600 ≠ -18000) :=
  ⟨rfl, by decide,
    C2_fold_disambiguation (-18000) 1000000 2000000 0 0 false false
      ⟨0, 0, 0, true, none⟩ 7 rfl (by decide)⟩

/-- C3: Local-to-UTC candidate selection — for a reading in the fall-back
overlap of a zone of the simple family there are two distinct UTC
candidates with complementary DST flags, and `_mktime` selects the earlier
(DST/larger-offset) candidate when fold is 0 and the later
(standard/smaller-offset) candidate when fold is 1. -/
theorem C3_candidate_selection (gs gd T1 T2 l : Int) (mi : Nat) (Z : SystemTZ)
    (hZ : Z.hasFold = true) (h : Sane gs gd T1 T2)
    (hl1 : T2 + gs ≤ l) (hl2 : l < T2 + gd) :
    candidates (simpleTZ gs gd T1 T2) l = [l - gs, l - gd, l - gs] ∧
    l - gd < l - gs ∧
    (sampleAt (simpleTZ gs gd T1 T2) (l - gd)).isdst = 1 ∧
    (sampleAt (simpleTZ gs gd T1 T2) (l - gs)).isdst = 0 ∧
    mkt Z (simpleTZ gs gd T1 T2) ⟨l, mi, false, some Z.id⟩ =
      .ok (⟨l, gd, 1, "DST"⟩, l - gd) ∧
    mkt Z (simpleTZ gs gd T1 T2) ⟨l, mi, true, some Z.id⟩ =
      .ok (⟨l, gs, 0, "STD"⟩, l - gs) := by
  obtain ⟨h1, h2, h3, h4, h5⟩ := h
  refine ⟨cand_overlap gs gd T1 T2 l ⟨h1, h2, h3, h4, h5⟩ hl1 hl2, by omega,
    by rw [isdst_simple, if_neg (by omega), if_pos (by omega)],
    by rw [isdst_simple, if_pos (by omega)], ?_, ?_⟩
  · rw [mkt_overlap gs gd T1 T2 l mi false Z hZ ⟨h1, h2, h3, h4, h5⟩ hl1 hl2]
    simp
  · rw [mkt_overlap gs gd T1 T2 l mi true Z hZ ⟨h1, h2, h3, h4, h5⟩ hl1 hl2]
    simp

theorem C3_candidate_selection_witness :
    (⟨0, 0, 0, true, none⟩ : SystemTZ).hasFold = true ∧
    Sane (-18000) (-14400) 1000000 2000000 ∧
    (2000000 : Int) + -18000 ≤ 1982100 ∧ (1982100 : Int) < 2000000 + -14400 ∧
    (candidates (simpleTZ (-18000) (-14400) 1000000 2000000) 1982100 =
        [1982100 - -18000, 1982100 - -14400, 1982100 - -18000] ∧
      (1982100 : Int) - -14400 < 1982100 - -18000 ∧
      (sampleAt (simpleTZ (-18000) (-14400) 1000000 2000000) (1982100 - -14400)).isdst = 1 ∧
      (sampleAt (simpleTZ (-18000) (-14400) 1000000 2000000) (1982100 - -18000)).isdst = 0 ∧
      mkt ⟨0, 0, 0, true, none⟩ (simpleTZ (-18000) (-14400) 1000000 2000000)
          ⟨1982100, 5, false, some (⟨0, 0, 0, true, none⟩ : SystemTZ).id⟩ =
        .ok (⟨1982100, -14400, 1, "DST"⟩, 1982100 - -14400) ∧
      mkt ⟨0, 0, 0, true, none⟩ (simpleTZ (-18000) (-14400) 1000000 2000000)
          ⟨1982100, 5, true, some (⟨0, 0, 0, true, none⟩ : SystemTZ).id⟩ =
        .ok (⟨1982100, -18000, 0, "STD"⟩, 1982100 - -18000)) :=
  ⟨rfl, by decide, by decide, by decide,
    C3_candidate_selection (-18000) (-14400) 1000000 2000000 1982100 5
      ⟨0, 0, 0, true, none⟩ rfl (by decide) (by decide) (by decide)⟩

/-- C4: Fold irrelevance outside overlap windows — for every local reading
of a zone of the simple family that does not fall in the fall-back overlap
window, `_mktime` (and hence `utcoffset`, `tzname` and `dst`) produces the
same result whether the fold bit is 0 or 1. -/
theorem C4_fold_irrelevant (gs gd T1 T2 l : Int) (mi : Nat) (Z : SystemTZ) (now : Int)
    (hZ : Z.hasFold = true) (h : Sane gs gd T1 T2)
    (hno : ¬ (T2 + gs ≤ l ∧ l < T2 + gd)) :
    mkt Z (simpleTZ gs gd T1 T2) ⟨l, mi, false, some Z.id⟩ =
      mkt Z (simpleTZ gs gd T1 T2) ⟨l, mi, true, some Z.id⟩ ∧
    utcoffset Z (simpleTZ gs gd T1 T2) now (some ⟨l, mi, false, some Z.id⟩) =
      utcoffset Z (simpleTZ gs gd T1 T2) now (some ⟨l, mi, true, some Z.id⟩) ∧
    tzname Z (simpleTZ gs gd T1 T2) now (some ⟨l, mi, false, some Z.id⟩) =
      tzname Z (simpleTZ gs gd T1 T2) now (some ⟨l, mi, true, some Z.id⟩) ∧
    dst Z (simpleTZ gs gd T1 T2) now (some ⟨l, mi, false, some Z.id⟩) =
      dst Z (simpleTZ gs gd T1 T2) now (some ⟨l, mi, true, some Z.id⟩) := by
  obtain ⟨h1, h2, h3, h4, h5⟩ := h
  have hm : mkt Z (simpleTZ gs gd T1 T2) ⟨l, mi, false, some Z.id⟩ =
      mkt Z (simpleTZ gs gd T1 T2) ⟨l, mi, true, some Z.id⟩ := by
    rcases lt_or_le l (T1 + gs) with c1 | c1
    · rw [mkt_stdearly gs gd T1 T2 l mi false Z hZ ⟨h1, h2, h3, h4, h5⟩ c1,
        mkt_stdearly gs gd T1 T2 l mi true Z hZ ⟨h1, h2, h3, h4, h5⟩ c1]
    rcases lt_or_le l (T1 + gd) with c2 | c2
    · rcases lt_or_le l T1 with c3 | c3
      · rw [mkt_gap_before gs gd T1 T2 l mi false Z hZ ⟨h1, h2, h3, h4, h5⟩ c1 c2 c3,
          mkt_gap_before gs gd T1 T2 l mi true Z hZ ⟨h1, h2, h3, h4, h5⟩ c1 c2 c3]
      · rw [mkt_gap_after gs gd T1 T2 l mi false Z hZ ⟨h1, h2, h3, h4, h5⟩ c1 c2 c3,
          mkt_gap_after gs gd T1 T2 l mi true Z hZ ⟨h1, h2, h3, h4, h5⟩ c1 c2 c3]
    rcases lt_or_le l (T2 + gs) with c3 | c3
    · rw [mkt_dstread gs gd T1 T2 l mi false Z hZ ⟨h1, h2, h3, h4, h5⟩ c2 c3,
        mkt_dstread gs gd T1 T2 l mi true Z hZ ⟨h1, h2, h3, h4, h5⟩ c2 c3]
    · have c4 : T2 + gd ≤ l := by omega
      rw [mkt_stdlate gs gd T1 T2 l mi false Z hZ ⟨h1, h2, h3, h4, h5⟩ c4,
        mkt_stdlate gs gd T1 T2 l mi true Z hZ ⟨h1, h2, h3, h4, h5⟩ c4]
  exact ⟨hm, by simp [utcoffset, hm], by simp [tzname, hm], by simp [dst, hm]⟩

theorem C4_fold_irrelevant_witness :
    (⟨0, 0, 0, true, none⟩ : SystemTZ).hasFold = true ∧
    Sane (-18000) (-14400) 1000000 2000000 ∧
    ¬ ((2000000 : Int) + -18000 ≤ 1500000 ∧ (1500000 : Int) < 2000000 + -14400) ∧
    (mkt ⟨0, 0, 0, true, none⟩ (simpleTZ (-18000) (-14400) 1000000 2000000)
        ⟨1500000, 2, false, some (⟨0, 0, 0, true, none⟩ : SystemTZ).id⟩ =
      mkt ⟨0, 0, 0, true, none⟩ (simpleTZ (-18000) (-14400) 1000000 2000000)
        ⟨1500000, 2, true, some (⟨0, 0, 0, true, none⟩ : SystemTZ).id⟩ ∧
    utcoffset ⟨0, 0, 0, true, none⟩ (simpleTZ (-18000) (-14400) 1000000 2000000) 7
        (some ⟨1500000, 2, false, some (⟨0, 0, 0, true, none⟩ : SystemTZ).id⟩) =
      utcoffset ⟨0, 0, 0, true, none⟩ (simpleTZ (-18000) (-14400) 1000000 2000000) 7
        (some ⟨1500000, 2, true, some (⟨0, 0, 0, true, none⟩ : SystemTZ).id⟩) ∧
    tzname ⟨0, 0, 0, true, none⟩ (simpleTZ (-18000) (-14400) 1000000 2000000) 7
        (some ⟨1500000, 2, false, some (⟨0, 0, 0, true, none⟩ : SystemTZ).id⟩) =
      tzname ⟨0, 0, 0, true, none⟩ (simpleTZ (-18000) (-14400) 1000000 2000000) 7
        (some ⟨1500000, 2, true, some (⟨0, 0, 0, true, none⟩ : SystemTZ).id⟩) ∧
    dst ⟨0, 0, 0, true, none⟩ (simpleTZ (-18000) (-14400) 1000000 2000000) 7
        (some ⟨1500000, 2, false, some (⟨0, 0, 0, true, none⟩ : SystemTZ).id⟩) =
      dst ⟨0, 0, 0, true, none⟩ (simpleTZ (-18000) (-14400) 1000000 2000000) 7
        (some ⟨1500000, 2, true, some (⟨0, 0, 0, true, none⟩ : SystemTZ).id⟩)) :=
  ⟨rfl, by decide, by decide,
    C4_fold_irrelevant (-18000) (-14400) 1000000 2000000 1500000 2
      ⟨0, 0, 0, true, none⟩ 7 rfl (by decide) (by decide)⟩

/-! ### Claims C5-C10 -/

/-- C5: DST-none versus DST-zero distinction — `dst` returns `none` exactly
when the resolved sample's `tm_isdst` is negative (platform cannot
determine DST status), returns a zero duration when the resolved sample
shows DST not in effect (including zones with no DST rules), and returns
the computed DST delta when DST is in effect; this holds in both the
explicit-argument mode and the current-time mode. -/
theorem C5_dst_none_vs_zero (Z : SystemTZ) (tz : TZ) (now : Int) (d : LocalDT)
    (t : TMRes) (secs : Int) (hres : mkt Z tz d = .ok (t, secs)) :
    ((dst Z tz now (some d) = .ok none ↔ t.isdst < 0) ∧
      (t.isdst = 0 → dst Z tz now (some d) = .ok (some 0)) ∧
      (0 < t.isdst → dst Z tz now (some d) = .ok (some (mktime tz t.lsec 0 - secs)))) ∧
    ((dst Z tz now none = .ok none ↔ (localtime tz now).isdst < 0) ∧
      ((localtime tz now).isdst = 0 → dst Z tz now none = .ok (some 0))) := by
  have hB : dst Z tz now (some d) = .ok (dstCore tz t secs) := by
    simp [dst, hres]
  have hA : dst Z tz now none = .ok (dstCore tz (localtime tz now) now) := rfl
  constructor
  · refine ⟨?_, ?_, ?_⟩
    · rw [hB]
      by_cases hneg : t.isdst < 0
      · simp [dstCore, hneg]
      · by_cases hz : t.isdst = 0 <;> simp [dstCore, hneg, hz]
    · intro hz
      rw [hB]
      simp [dstCore, hz]
    · intro hpos
      have hn1 : ¬ t.isdst < 0 := by omega
      have hn2 : ¬ t.isdst = 0 := by omega
      rw [hB]
      simp [dstCore, hn1, hn2]
  · constructor
    · rw [hA]
      by_cases hneg : (localtime tz now).isdst < 0
      · simp [dstCore, hneg]
      · by_cases hz : (localtime tz now).isdst = 0 <;> simp [dstCore, hneg, hz]
    · intro hz
      rw [hA]
      simp [dstCore, hz]

theorem C5_dst_none_vs_zero_witness :
    mkt ⟨0, 0, 0, true, none⟩ (TZ.mk ⟨50400, 0, "+14"⟩ []) ⟨1000, 0, false, some 0⟩ =
      .ok (⟨1000, 50400, 0, "+14"⟩, -49400) ∧
    ((dst ⟨0, 0, 0, true, none⟩ (TZ.mk ⟨50400, 0, "+14"⟩ []) 7
        (some ⟨1000, 0, false, some 0⟩) = .ok none ↔ (0 : Int) < 0) ∧
      ((0 : Int) = 0 → dst ⟨0, 0, 0, true, none⟩ (TZ.mk ⟨50400, 0, "+14"⟩ []) 7
        (some ⟨1000, 0, false, some 0⟩) = .ok (some 0)) ∧
      ((0 : Int) < 0 → dst ⟨0, 0, 0, true, none⟩ (TZ.mk ⟨50400, 0, "+14"⟩ []) 7
        (some ⟨1000, 0, false, some 0⟩) =
          .ok (some (mktime (TZ.mk ⟨50400, 0, "+14"⟩ []) 1000 0 - -49400)))) ∧
    ((dst ⟨0, 0, 0, true, none⟩ (TZ.mk ⟨50400, 0, "+14"⟩ []) 7 none = .ok none ↔
        (localtime (TZ.mk ⟨50400, 0, "+14"⟩ []) 7).isdst < 0) ∧
      ((localtime (TZ.mk ⟨50400, 0, "+14"⟩ []) 7).isdst = 0 →
        dst ⟨0, 0, 0, true, none⟩ (TZ.mk ⟨50400, 0, "+14"⟩ []) 7 none = .ok (some 0))) :=
  ⟨rfl, C5_dst_none_vs_zero ⟨0, 0, 0, true, none⟩ (TZ.mk ⟨50400, 0, "+14"⟩ []) 7
    ⟨1000, 0, false, some 0⟩ ⟨1000, 50400, 0, "+14"⟩ (-49400) rfl⟩

/-- C6: Contract-violation failure — for every datetime argument whose
`tzinfo` tag is not this exact resolver instance (naive values and values
tagged with a different, even configuration-equal, instance included),
`fromutc`, `_mktime`, `utcoffset`, `tzname` and `dst` all fail with an
assertion error instead of reinterpreting the value. -/
theorem C6_contract_violation (Z : SystemTZ) (tz : TZ) (now : Int) (d : LocalDT)
    (hbad : d.tz ≠ some Z.id) :
    fromutc Z tz d = .error "AssertionError" ∧
    mkt Z tz d = .error "AssertionError" ∧
    utcoffset Z tz now (some d) = .error "AssertionError" ∧
    tzname Z tz now (some d) = .error "AssertionError" ∧
    dst Z tz now (some d) = .error "AssertionError" := by
  have h1 : fromutc Z tz d = .error "AssertionError" := by
    simp [fromutc, hbad]
  have h2 : mkt Z tz d = .error "AssertionError" := by
    simp [mkt, hbad]
  exact ⟨h1, h2, by simp [utcoffset, h2], by simp [tzname, h2], by simp [dst, h2]⟩

theorem C6_contract_violation_witness :
    ((⟨0, 0, false, none⟩ : LocalDT).tz ≠ some (⟨3, 0, 0, true, none⟩ : SystemTZ).id) ∧
    (fromutc ⟨3, 0, 0, true, none⟩ (TZ.mk ⟨0, 0, "UTC"⟩ []) ⟨0, 0, false, none⟩ =
        .error "AssertionError" ∧
      mkt ⟨3, 0, 0, true, none⟩ (TZ.mk ⟨0, 0, "UTC"⟩ []) ⟨0, 0, false, none⟩ =
        .error "AssertionError" ∧
      utcoffset ⟨3, 0, 0, true, none⟩ (TZ.mk ⟨0, 0, "UTC"⟩ []) 7
          (some ⟨0, 0, false, none⟩) = .error "AssertionError" ∧
      tzname ⟨3, 0, 0, true, none⟩ (TZ.mk ⟨0, 0, "UTC"⟩ []) 7
          (some ⟨0, 0, false, none⟩) = .error "AssertionError" ∧
      dst ⟨3, 0, 0, true, none⟩ (TZ.mk ⟨0, 0, "UTC"⟩ []) 7
          (some ⟨0, 0, false, none⟩) = .error "AssertionError") :=
  ⟨by decide, C6_contract_violation ⟨3, 0, 0, true, none⟩ (TZ.mk ⟨0, 0, "UTC"⟩ []) 7
    ⟨0, 0, false, none⟩ (by decide)⟩

/-- Helper for C7: a successful `datetime_tz.__init__` yields an aware value
with a non-null offset. -/
theorem mk_ok_aware (cls : DTClass) (lsec : Int) (mi : Nat) (f : Bool)
    (tzi : Option PyTzinfo) (r : PyDatetime) (hok : mkDatetimeTz cls lsec mi f tzi = .ok r) :
    ∃ zi, r.tzinfo = some zi ∧ zi.utcoffsetFn r.lsec r.fold ≠ none := by
  cases tzi with
  | none => simp [mkDatetimeTz] at hok
  | some zi =>
    simp only [mkDatetimeTz] at hok
    split at hok
    · rcases hoff : zi.utcoffsetFn lsec f with _ | v <;> rw [hoff] at hok
      · simp at hok
      · simp only [Except.ok.injEq] at hok
        subst hok
        exact ⟨zi, rfl, by simp [hoff]⟩
    · simp at hok

/-- Helper for C7: a successful `assert_aware_datetime` plus `cls(...)`
tail of `from_datetime` yields an aware value with a non-null offset. -/
theorem finish_ok_aware (cls : DTClass) (d : PyDatetime) (r : PyDatetime)
    (hok : fromDatetimeFinish cls d = .ok r) :
    ∃ zi, r.tzinfo = some zi ∧ zi.utcoffsetFn r.lsec r.fold ≠ none := by
  cases hzi : d.tzinfo with
  | none => simp [fromDatetimeFinish, hzi] at hok
  | some zi =>
    simp only [fromDatetimeFinish, hzi] at hok
    rcases hoff : zi.utcoffsetFn d.lsec d.fold with _ | v <;> rw [hoff] at hok
    · simp at hok
    · exact mk_ok_aware cls d.lsec d.micro d.fold (some zi) r hok

/-- C7: Construction-time awareness guarantee — every value accepted by the
`datetime_tz` constructor, and every value returned by `from_datetime`,
carries a non-null `tzinfo` whose `utcoffset` for the value is non-null; a
construction without a `tzinfo` is rejected with an assertion failure; and
`from_datetime` raises `DatetimeTzError` on a naive input when the class
has no assumed timezone. -/
theorem C7_construction_awareness :
    (∀ (cls : DTClass) (lsec : Int) (mi : Nat) (f : Bool) (tzi : Option PyTzinfo)
      (r : PyDatetime), mkDatetimeTz cls lsec mi f tzi = .ok r →
        ∃ zi, r.tzinfo = some zi ∧ zi.utcoffsetFn r.lsec r.fold ≠ none) ∧
    (∀ (cls : DTClass) (dt r : PyDatetime), from_datetime cls dt = .ok r →
        ∃ zi, r.tzinfo = some zi ∧ zi.utcoffsetFn r.lsec r.fold ≠ none) ∧
    (∀ (cls : DTClass) (lsec : Int) (mi : Nat) (f : Bool),
      mkDatetimeTz cls lsec mi f none = .error "AssertionError: must have a timezone") ∧
    (∀ (cls : DTClass) (dt : PyDatetime), cls.assumedTz = none → dt.tzinfo = none →
      from_datetime cls dt =
        .error "DatetimeTzError: Cannot create aware datetime from naive if no tz is assumed") := by
  refine ⟨mk_ok_aware, ?_, fun cls lsec mi f => rfl, ?_⟩
  · intro cls dt r hok
    cases hzi : dt.tzinfo with
    | none =>
      cases ha : cls.assumedTz with
      | none => simp [from_datetime, hzi, ha] at hok
      | some a =>
        simp only [from_datetime, hzi, ha] at hok
        exact finish_ok_aware cls _ r hok
    | some zi =>
      cases ha : cls.assumedTz with
      | none =>
        simp only [from_datetime, hzi, ha] at hok
        exact finish_ok_aware cls dt r hok
      | some a =>
        simp only [from_datetime, hzi, ha] at hok
        exact finish_ok_aware cls _ r hok
  · intro cls dt ha hzi
    simp [from_datetime, hzi, ha]

theorem C7_construction_awareness_witness :
    (∃ zi, (⟨44, 6, true, some ⟨9, fun _ _ => some 120, fun u => (u, false)⟩,
        none⟩ : PyDatetime).tzinfo = some zi ∧
      zi.utcoffsetFn 44 true ≠ none) ∧
    (mkDatetimeTz ⟨none⟩ 44 6 true none = .error "AssertionError: must have a timezone") ∧
    (from_datetime ⟨none⟩ ⟨44, 6, true, none, none⟩ =
      .error "DatetimeTzError: Cannot create aware datetime from naive if no tz is assumed") := by
  refine ⟨?_, C7_construction_awareness.2.2.1 ⟨none⟩ 44 6 true,
    C7_construction_awareness.2.2.2 ⟨none⟩ ⟨44, 6, true, none, none⟩ rfl rfl⟩
  have h := C7_construction_awareness.1 ⟨none⟩ 44 6 true
    (some ⟨9, fun _ _ => some 120, fun u => (u, false)⟩)
    ⟨44, 6, true, some ⟨9, fun _ _ => some 120, fun u => (u, false)⟩, none⟩ rfl
  exact h

/-- C8: Resolver equality — two `SystemTZ` instances compare equal exactly
when they are of the same class and configured with the same
datetime-like result class; the display-name override plays no role. -/
theorem C8_resolver_equality (a b : SystemTZ) (hid : a.id = b.id → a = b) :
    pyEq a b = true ↔ (a.cls = b.cls ∧ a.dtCls = b.dtCls) := by
  unfold pyEq sysEq
  by_cases hc : b.cls = a.cls
  · rw [if_pos hc]
    show decide (b.dtCls = a.dtCls) = true ↔ (a.cls = b.cls ∧ a.dtCls = b.dtCls)
    simp only [decide_eq_true_eq]
    exact ⟨fun hbd => ⟨hc.symm, hbd.symm⟩, fun h => h.2.symm⟩
  · have hc' : ¬ (a.cls = b.cls) := fun h => hc h.symm
    rw [if_neg hc, if_neg hc']
    show decide (a.id = b.id) = true ↔ (a.cls = b.cls ∧ a.dtCls = b.dtCls)
    simp only [decide_eq_true_eq]
    constructor
    · intro h
      exact absurd (congrArg SystemTZ.cls (hid h)) hc'
    · rintro ⟨h1, -⟩
      exact absurd h1 hc'

theorem C8_resolver_equality_witness :
    ((⟨1, 0, 5, true, none⟩ : SystemTZ).id = (⟨2, 0, 5, true, some "Amsterdam"⟩ : SystemTZ).id →
      (⟨1, 0, 5, true, none⟩ : SystemTZ) = ⟨2, 0, 5, true, some "Amsterdam"⟩) ∧
    (pyEq ⟨1, 0, 5, true, none⟩ ⟨2, 0, 5, true, some "Amsterdam"⟩ = true ↔
      ((⟨1, 0, 5, true, none⟩ : SystemTZ).cls = (⟨2, 0, 5, true, some "Amsterdam"⟩ : SystemTZ).cls ∧
        (⟨1, 0, 5, true, none⟩ : SystemTZ).dtCls =
          (⟨2, 0, 5, true, some "Amsterdam"⟩ : SystemTZ).dtCls)) :=
  ⟨by decide, C8_resolver_equality ⟨1, 0, 5, true, none⟩ ⟨2, 0, 5, true, some "Amsterdam"⟩
    (by decide)⟩

/-- Helper for C9: on an aware input with an assumed class timezone,
`from_datetime` reduces to the astimezone conversion followed by the
assertion-and-construction tail. -/
theorem from_datetime_aware_assumed (cls : DTClass) (a zi : PyTzinfo) (dt : PyDatetime)
    (hzi : dt.tzinfo = some zi) (ha : cls.assumedTz = some a) :
    from_datetime cls dt = fromDatetimeFinish cls
      (if dt.assumedAttr.isSome then
        astimezone ⟨dt.lsec, dt.micro, dt.fold, some zi, none⟩ a
      else astimezone dt a) := by
  obtain ⟨ls, mic, fl, tzi, att⟩ := dt
  simp only at hzi
  subst hzi
  simp [from_datetime, ha]

/-- C9: Instant preservation by `from_datetime` — for an aware input and a
class with an assumed timezone whose conversions are instant-preserving,
`from_datetime` succeeds, the result is tagged with the assumed timezone,
and the result denotes the same absolute instant as the input. -/
theorem C9_from_datetime_instant (cls : DTClass) (a zi : PyTzinfo) (dt : PyDatetime)
    (off : Int) (hassume : cls.assumedTz = some a)
    (hwf : ∀ u, ∃ o, a.utcoffsetFn (a.fromutcFn u).1 (a.fromutcFn u).2 = some o ∧
      (a.fromutcFn u).1 - o = u)
    (hzi : dt.tzinfo = some zi) (hoff : zi.utcoffsetFn dt.lsec dt.fold = some off) :
    ∃ r, from_datetime cls dt = .ok r ∧ r.tzinfo = some a ∧
      instantOf r = some (dt.lsec - off) ∧ instantOf dt = some (dt.lsec - off) := by
  obtain ⟨o, ho, hinv⟩ := hwf (dt.lsec - off)
  have hast1 : astimezone ⟨dt.lsec, dt.micro, dt.fold, some zi, none⟩ a =
      ⟨(a.fromutcFn (dt.lsec - off)).1, dt.micro, (a.fromutcFn (dt.lsec - off)).2,
        some a, none⟩ := by
    simp [astimezone, hoff]
  have hast2 : astimezone dt a =
      ⟨(a.fromutcFn (dt.lsec - off)).1, dt.micro, (a.fromutcFn (dt.lsec - off)).2,
        some a, none⟩ := by
    simp [astimezone, hzi, hoff]
  refine ⟨⟨(a.fromutcFn (dt.lsec - off)).1, dt.micro, (a.fromutcFn (dt.lsec - off)).2,
    some a, some a⟩, ?_, rfl, ?_, ?_⟩
  · rw [from_datetime_aware_assumed cls a zi dt hzi hassume]
    have hone : (if dt.assumedAttr.isSome then
        astimezone ⟨dt.lsec, dt.micro, dt.fold, some zi, none⟩ a
      else astimezone dt a) =
        ⟨(a.fromutcFn (dt.lsec - off)).1, dt.micro, (a.fromutcFn (dt.lsec - off)).2,
          some a, none⟩ := by
      by_cases hA : dt.assumedAttr.isSome <;> simp [hA, hast1, hast2]
    rw [hone]
    simp [fromDatetimeFinish, mkDatetimeTz, ho, hassume]
  · simp [instantOf, ho, hinv]
  · simp [instantOf, hzi, hoff]

theorem C9_from_datetime_instant_witness :
    ∃ r, from_datetime ⟨some ⟨0, fun _ _ => some 0, fun u => (u, false)⟩⟩
        ⟨5000, 1, false, some ⟨1, fun _ _ => some 3600, fun u => (u + 3600, false)⟩, none⟩ =
        .ok r ∧
      r.tzinfo = some ⟨0, fun _ _ => some 0, fun u => (u, false)⟩ ∧
      instantOf r = some (5000 - 3600) ∧
      instantOf ⟨5000, 1, false, some ⟨1, fun _ _ => some 3600, fun u => (u + 3600, false)⟩,
        none⟩ = some (5000 - 3600) :=
  C9_from_datetime_instant ⟨some ⟨0, fun _ _ => some 0, fun u => (u, false)⟩⟩
    ⟨0, fun _ _ => some 0, fun u => (u, false)⟩
    ⟨1, fun _ _ => some 3600, fun u => (u + 3600, false)⟩
    ⟨5000, 1, false, some ⟨1, fun _ _ => some 3600, fun u => (u + 3600, false)⟩, none⟩
    3600 rfl (fun u => ⟨0, rfl, by simp⟩) rfl rfl

/-- C10: Fold behaviour when DST status is unreported — when the platform
reports a negative `tm_isdst` for the resolved time, `fromutc` returns
fold 0, and `_mktime` ignores the fold bit entirely. -/
theorem C10_isdst_unknown (Z : SystemTZ) (tz : TZ) (u l : Int) (mi : Nat) (f : Bool)
    (hZ : Z.hasFold = true)
    (huneg : (localtime tz u).isdst < 0)
    (hlneg : (localtime tz (mktime tz l (-1))).isdst < 0) :
    fromutc Z tz ⟨u, mi, f, some Z.id⟩ =
      .ok ⟨(localtime tz u).lsec, mi, false, some Z.id⟩ ∧
    mkt Z tz ⟨l, mi, false, some Z.id⟩ = mkt Z tz ⟨l, mi, true, some Z.id⟩ := by
  constructor
  · simp [fromutc, hZ, huneg]
  · simp [mkt, hZ, hlneg]

theorem C10_isdst_unknown_witness :
    (⟨0, 0, 0, true, none⟩ : SystemTZ).hasFold = true ∧
    (localtime (TZ.mk ⟨3600, -1, "U"⟩ []) 77).isdst < 0 ∧
    (localtime (TZ.mk ⟨3600, -1, "U"⟩ [])
      (mktime (TZ.mk ⟨3600, -1, "U"⟩ []) 500 (-1))).isdst < 0 ∧
    (fromutc ⟨0, 0, 0, true, none⟩ (TZ.mk ⟨3600, -1, "U"⟩ [])
        ⟨77, 4, true, some (⟨0, 0, 0, true, none⟩ : SystemTZ).id⟩ =
      .ok ⟨(localtime (TZ.mk ⟨3600, -1, "U"⟩ []) 77).lsec, 4, false,
        some (⟨0, 0, 0, true, none⟩ : SystemTZ).id⟩ ∧
    mkt ⟨0, 0, 0, true, none⟩ (TZ.mk ⟨3600, -1, "U"⟩ [])
        ⟨500, 4, false, some (⟨0, 0, 0, true, none⟩ : SystemTZ).id⟩ =
      mkt ⟨0, 0, 0, true, none⟩ (TZ.mk ⟨3600, -1, "U"⟩ [])
        ⟨500, 4, true, some (⟨0, 0, 0, true, none⟩ : SystemTZ).id⟩) :=
  ⟨rfl, by decide, by decide,
    C10_isdst_unknown ⟨0, 0, 0, true, none⟩ (TZ.mk ⟨3600, -1, "U"⟩ []) 77 500 4 true
      rfl (by decide) (by decide)⟩

end Heliclockter
